import Mathlib

/-!
Shallow embedding of the galerie static photo-gallery generator
(`src/processing.rs`, `src/pipeline.rs`, `src/photos.rs`, `src/config.rs`,
`src/watch.rs`) together with proofs about its photo-processing and
incremental-build pipeline.

Modelling conventions:
* Byte sequences are `List Nat`.
* The BLAKE3 digest truncated to its first 8 hex characters is modelled as an
  arbitrary function into `Hex8 := Fin (16 ^ 8)` (the space of 8-hex-character
  strings); the concrete compression function is external to the repository.
* External library calls (image decoding, resizing, WebP encoding, the
  `little_exif` tag parser and rewriter, the reverse geocoder, float
  formatting) are parameters collected in the `Ext` structure; the repository
  code composing them is embedded faithfully.
* `f64` decimal-degree arithmetic of `gps_rational_to_decimal` is modelled
  with exact rationals.
* The output filesystem is an association list from path strings to bytes.
-/

set_option autoImplicit false

namespace Galerie

/-- Raw file contents: a sequence of bytes. -/
abbrev Bytes := List Nat

/-- Output path of the build tree, as a string (segments joined by `/`). -/
abbrev Path := String

/-- The space of 8-hex-character digests: `blake3::hash(..).to_hex()[..8]`
keeps 8 hex characters, i.e. one of `16 ^ 8` possible values. -/
abbrev Hex8 := Fin (16 ^ 8)

/-- The lowercase hex character of a 4-bit value: digits for 0-9 (code
point 48 up), letters for 10-15 (code point 97 is the letter after 87 + 10). -/
def hex_char (i : Fin 16) : Char :=
  if i.1 < 10 then Char.ofNat (48 + i.1) else Char.ofNat (87 + i.1)

/-- The sixteen lowercase hexadecimal digit characters, in value order. -/
def hex_digits : List Char :=
  (List.range 16).map (fun n => hex_char ⟨n % 16, Nat.mod_lt _ (by omega)⟩)

/-- Render a truncated digest as its 8-character lowercase hex string,
most-significant digit first (as `to_hex` does). -/
def hex8_chars (x : Hex8) : List Char :=
  (List.range 8).map (fun i => hex_char ⟨x.1 / 16 ^ (7 - i) % 16, Nat.mod_lt _ (by omega)⟩)

/-- String form of `hex8_chars`. -/
def hex8_string (x : Hex8) : String := String.mk (hex8_chars x)

/-- GPS privacy mode (`config.rs`): `Off` / `General` / `On`. -/
inductive GpsMode where
  | off
  | general
  | on
  deriving DecidableEq, Repr

/-- `GpsMode::original_suffix` (`config.rs` lines 21-32): filename suffix for
original files; `-nogps` when GPS is stripped (Off or General). -/
def GpsMode.original_suffix : GpsMode → String
  | .on => ""
  | .off => "-nogps"
  | .general => "-nogps"

/-- An unsigned EXIF rational (`little_exif::rational::uR64`). -/
structure UR64 where
  nominator : Nat
  denominator : Nat
  deriving DecidableEq, Repr

/-- Reverse-geocoder output record (`reverse_geocoder` crate, external):
locality name, admin1 region, and ISO 3166-1 alpha-2 country code. -/
structure GeoRecord where
  name : String
  admin1 : String
  cc : String
  deriving DecidableEq, Repr

/-- GPS coordinates and reverse-geocoded location (`photos.rs::GpsCoords`).
Coordinates are exact rationals standing in for `f64` decimal degrees. -/
structure GpsCoords where
  latitude : Option ℚ
  longitude : Option ℚ
  display : Option String
  city : Option String
  region : Option String
  country : Option String
  country_code : Option String
  flag : Option String
  deriving DecidableEq, Repr

/-- `photos.rs::country_code_to_flag`: each ASCII letter of the country code
becomes a regional indicator symbol (U+1F1E6 for `A`); other characters are
dropped. `to_ascii_uppercase` only maps `a`-`z`. -/
def country_code_to_flag (cc : String) : String :=
  String.mk (cc.data.filterMap (fun c =>
    let u := if 'a' ≤ c ∧ c ≤ 'z' then Char.ofNat (c.toNat - 32) else c
    if 'A' ≤ u ∧ u ≤ 'Z' then some (Char.ofNat (0x1F1E6 + (u.toNat - 65))) else none))

/-- The ISO 3166-1 alpha-2 code to country name pairs of
`photos.rs::country_code_to_name`, one per match arm. -/
def country_code_table : List (String × String) :=
  [
  ("AD", "Andorra"),
  ("AE", "United Arab Emirates"),
  ("AF", "Afghanistan"),
  ("AG", "Antigua and Barbuda"),
  ("AI", "Anguilla"),
  ("AL", "Albania"),
  ("AM", "Armenia"),
  ("AO", "Angola"),
  ("AQ", "Antarctica"),
  ("AR", "Argentina"),
  ("AS", "American Samoa"),
  ("AT", "Austria"),
  ("AU", "Australia"),
  ("AW", "Aruba"),
  ("AZ", "Azerbaijan"),
  ("BA", "Bosnia and Herzegovina"),
  ("BB", "Barbados"),
  ("BD", "Bangladesh"),
  ("BE", "Belgium"),
  ("BF", "Burkina Faso"),
  ("BG", "Bulgaria"),
  ("BH", "Bahrain"),
  ("BI", "Burundi"),
  ("BJ", "Benin"),
  ("BM", "Bermuda"),
  ("BN", "Brunei"),
  ("BO", "Bolivia"),
  ("BR", "Brazil"),
  ("BS", "Bahamas"),
  ("BT", "Bhutan"),
  ("BW", "Botswana"),
  ("BY", "Belarus"),
  ("BZ", "Belize"),
  ("CA", "Canada"),
  ("CD", "DR Congo"),
  ("CF", "Central African Republic"),
  ("CG", "Congo"),
  ("CH", "Switzerland"),
  ("CI", "Ivory Coast"),
  ("CL", "Chile"),
  ("CM", "Cameroon"),
  ("CN", "China"),
  ("CO", "Colombia"),
  ("CR", "Costa Rica"),
  ("CU", "Cuba"),
  ("CV", "Cape Verde"),
  ("CY", "Cyprus"),
  ("CZ", "Czechia"),
  ("DE", "Germany"),
  ("DJ", "Djibouti"),
  ("DK", "Denmark"),
  ("DM", "Dominica"),
  ("DO", "Dominican Republic"),
  ("DZ", "Algeria"),
  ("EC", "Ecuador"),
  ("EE", "Estonia"),
  ("EG", "Egypt"),
  ("ER", "Eritrea"),
  ("ES", "Spain"),
  ("ET", "Ethiopia"),
  ("FI", "Finland"),
  ("FJ", "Fiji"),
  ("FK", "Falkland Islands"),
  ("FM", "Micronesia"),
  ("FO", "Faroe Islands"),
  ("FR", "France"),
  ("GA", "Gabon"),
  ("GB", "United Kingdom"),
  ("GD", "Grenada"),
  ("GE", "Georgia"),
  ("GH", "Ghana"),
  ("GI", "Gibraltar"),
  ("GL", "Greenland"),
  ("GM", "Gambia"),
  ("GN", "Guinea"),
  ("GQ", "Equatorial Guinea"),
  ("GR", "Greece"),
  ("GT", "Guatemala"),
  ("GU", "Guam"),
  ("GW", "Guinea-Bissau"),
  ("GY", "Guyana"),
  ("HK", "Hong Kong"),
  ("HN", "Honduras"),
  ("HR", "Croatia"),
  ("HT", "Haiti"),
  ("HU", "Hungary"),
  ("ID", "Indonesia"),
  ("IE", "Ireland"),
  ("IL", "Israel"),
  ("IN", "India"),
  ("IQ", "Iraq"),
  ("IR", "Iran"),
  ("IS", "Iceland"),
  ("IT", "Italy"),
  ("JM", "Jamaica"),
  ("JO", "Jordan"),
  ("JP", "Japan"),
  ("KE", "Kenya"),
  ("KG", "Kyrgyzstan"),
  ("KH", "Cambodia"),
  ("KI", "Kiribati"),
  ("KM", "Comoros"),
  ("KN", "Saint Kitts and Nevis"),
  ("KP", "North Korea"),
  ("KR", "South Korea"),
  ("KW", "Kuwait"),
  ("KY", "Cayman Islands"),
  ("KZ", "Kazakhstan"),
  ("LA", "Laos"),
  ("LB", "Lebanon"),
  ("LC", "Saint Lucia"),
  ("LI", "Liechtenstein"),
  ("LK", "Sri Lanka"),
  ("LR", "Liberia"),
  ("LS", "Lesotho"),
  ("LT", "Lithuania"),
  ("LU", "Luxembourg"),
  ("LV", "Latvia"),
  ("LY", "Libya"),
  ("MA", "Morocco"),
  ("MC", "Monaco"),
  ("MD", "Moldova"),
  ("ME", "Montenegro"),
  ("MG", "Madagascar"),
  ("MH", "Marshall Islands"),
  ("MK", "North Macedonia"),
  ("ML", "Mali"),
  ("MM", "Myanmar"),
  ("MN", "Mongolia"),
  ("MO", "Macau"),
  ("MR", "Mauritania"),
  ("MT", "Malta"),
  ("MU", "Mauritius"),
  ("MV", "Maldives"),
  ("MW", "Malawi"),
  ("MX", "Mexico"),
  ("MY", "Malaysia"),
  ("MZ", "Mozambique"),
  ("NA", "Namibia"),
  ("NC", "New Caledonia"),
  ("NE", "Niger"),
  ("NG", "Nigeria"),
  ("NI", "Nicaragua"),
  ("NL", "Netherlands"),
  ("NO", "Norway"),
  ("NP", "Nepal"),
  ("NR", "Nauru"),
  ("NZ", "New Zealand"),
  ("OM", "Oman"),
  ("PA", "Panama"),
  ("PE", "Peru"),
  ("PF", "French Polynesia"),
  ("PG", "Papua New Guinea"),
  ("PH", "Philippines"),
  ("PK", "Pakistan"),
  ("PL", "Poland"),
  ("PR", "Puerto Rico"),
  ("PS", "Palestine"),
  ("PT", "Portugal"),
  ("PW", "Palau"),
  ("PY", "Paraguay"),
  ("QA", "Qatar"),
  ("RO", "Romania"),
  ("RS", "Serbia"),
  ("RU", "Russia"),
  ("RW", "Rwanda"),
  ("SA", "Saudi Arabia"),
  ("SB", "Solomon Islands"),
  ("SC", "Seychelles"),
  ("SD", "Sudan"),
  ("SE", "Sweden"),
  ("SG", "Singapore"),
  ("SI", "Slovenia"),
  ("SK", "Slovakia"),
  ("SL", "Sierra Leone"),
  ("SM", "San Marino"),
  ("SN", "Senegal"),
  ("SO", "Somalia"),
  ("SR", "Suriname"),
  ("SS", "South Sudan"),
  ("ST", "Sao Tome and Principe"),
  ("SV", "El Salvador"),
  ("SY", "Syria"),
  ("SZ", "Eswatini"),
  ("TC", "Turks and Caicos"),
  ("TD", "Chad"),
  ("TG", "Togo"),
  ("TH", "Thailand"),
  ("TJ", "Tajikistan"),
  ("TL", "Timor-Leste"),
  ("TM", "Turkmenistan"),
  ("TN", "Tunisia"),
  ("TO", "Tonga"),
  ("TR", "Turkey"),
  ("TT", "Trinidad and Tobago"),
  ("TV", "Tuvalu"),
  ("TW", "Taiwan"),
  ("TZ", "Tanzania"),
  ("UA", "Ukraine"),
  ("UG", "Uganda"),
  ("US", "United States"),
  ("UY", "Uruguay"),
  ("UZ", "Uzbekistan"),
  ("VA", "Vatican City"),
  ("VC", "Saint Vincent and the Grenadines"),
  ("VE", "Venezuela"),
  ("VG", "British Virgin Islands"),
  ("VI", "U.S. Virgin Islands"),
  ("VN", "Vietnam"),
  ("VU", "Vanuatu"),
  ("WS", "Samoa"),
  ("XK", "Kosovo"),
  ("YE", "Yemen"),
  ("ZA", "South Africa"),
  ("ZM", "Zambia"),
  ("ZW", "Zimbabwe")]

/-- Lookup in `country_code_table`; codes outside the table (the source's
wildcard arm) yield `none`. -/
def country_code_to_name (cc : String) : Option String :=
  country_code_table.lookup cc

/-- `GpsCoords::new` (`photos.rs` lines 110-151): full coordinates plus the
reverse-geocoded place, for mode On. The display string built from the
`{:.4}`-formatted absolute values and hemisphere letters is abstracted as the
`fmt` parameter; the geocoder lookup is the `geocode` parameter. -/
def GpsCoords.new (fmt : ℚ → ℚ → String) (geocode : ℚ → ℚ → GeoRecord)
    (latitude longitude : ℚ) : GpsCoords :=
  let r := geocode latitude longitude
  { latitude := some latitude
    longitude := some longitude
    display := some (fmt latitude longitude)
    city := some r.name
    region := if r.admin1 = "" then none else some r.admin1
    country := country_code_to_name r.cc
    country_code := some r.cc
    flag := some (country_code_to_flag r.cc) }

/-- `GpsCoords::new_general` (`photos.rs` lines 153-186): reverse-geocoded
place only; the coordinate fields and display are `none` for privacy. -/
def GpsCoords.new_general (geocode : ℚ → ℚ → GeoRecord)
    (latitude longitude : ℚ) : GpsCoords :=
  let r := geocode latitude longitude
  { latitude := none
    longitude := none
    display := none
    city := some r.name
    region := if r.admin1 = "" then none else some r.admin1
    country := country_code_to_name r.cc
    country_code := some r.cc
    flag := some (country_code_to_flag r.cc) }

/-- Camera exposure settings (`photos.rs::ExposureInfo`, with the `program`
field constructed by `processing.rs::extract_exposure`). -/
structure ExposureInfo where
  aperture : Option String
  shutter_speed : Option String
  iso : Option Nat
  focal_length : Option String
  program : Option String
  deriving DecidableEq, Repr

/-- EXIF metadata extracted from a photo (`photos.rs::PhotoMetadata`, with the
`rating` field filled by `processing.rs::extract_exif`). -/
structure PhotoMetadata where
  date_taken : Option String := none
  copyright : Option String := none
  camera : Option String := none
  lens : Option String := none
  gps : Option GpsCoords := none
  exposure : Option ExposureInfo := none
  rating : Option Nat := none
  deriving DecidableEq, Repr

/-- ASCII lowercase of one character (extensions compared by
`get_file_extension` are ASCII, where Unicode and ASCII lowercase agree). -/
def ascii_lower (c : Char) : Char :=
  if 'A' ≤ c ∧ c ≤ 'Z' then Char.ofNat (c.toNat + 32) else c

/-- ASCII lowercase of a string (`str::to_lowercase` on ASCII input). -/
def lower_string (s : String) : String := String.mk (s.data.map ascii_lower)

/-- Character-level prefix test (`str::starts_with`). -/
def starts_with_str (s pre : String) : Bool := pre.data.isPrefixOf s.data

/-- File types understood by `little_exif` (`processing.rs::get_file_extension`). -/
inductive FileType where
  | jpeg
  | png
  | webp
  deriving DecidableEq, Repr

/-- `processing.rs::get_file_extension`: lowercased extension to `FileType`. -/
def get_file_extension (extension : String) : Option FileType :=
  match lower_string extension with
  | "jpg" => some .jpeg
  | "jpeg" => some .jpeg
  | "png" => some .png
  | "webp" => some .webp
  | _ => none

/-- The tag view of a parsed `little_exif::Metadata`: the value of each tag
queried by `extract_exif` / `extract_gps` / `extract_exposure`, or `none` when
the tag is absent. The parser producing it is external. -/
structure ExifData where
  date_time_original : Option String := none
  copyright : Option String := none
  make : Option String := none
  model : Option String := none
  lens_model : Option String := none
  gps_latitude : Option (List UR64) := none
  gps_latitude_ref : Option String := none
  gps_longitude : Option (List UR64) := none
  gps_longitude_ref : Option String := none
  f_number : Option (List UR64) := none
  exposure_time : Option (List UR64) := none
  iso : Option (List Nat) := none
  focal_length : Option (List UR64) := none
  exposure_program : Option (List Nat) := none
  deriving DecidableEq, Repr

/-- Merge of EXIF Make and Model into the camera field
(`processing.rs::extract_exif` lines 356-368): both present and the model
starting with the make yields the model alone, both present otherwise yields
`"make model"`, else whichever is present. -/
def camera_of : Option String → Option String → Option String
  | some m, some mo => if starts_with_str mo m then some mo else some (m ++ " " ++ mo)
  | none, some mo => some mo
  | some m, none => some m
  | none, none => none

/-- `processing.rs::gps_rational_to_decimal`: degrees/minutes/seconds
rationals and a direction letter to signed decimal degrees; fewer than three
values or a zero degree denominator yields `none`; zero minute or second
denominators degrade to `0`. -/
def gps_rational_to_decimal (vals : List UR64) (direction : String) : Option ℚ :=
  if vals.length < 3 then none
  else
    match vals with
    | d :: mi :: se :: _ =>
      if d.denominator = 0 then none
      else
        let degrees : ℚ := (d.nominator : ℚ) / (d.denominator : ℚ)
        let minutes : ℚ :=
          if mi.denominator ≠ 0 then (mi.nominator : ℚ) / (mi.denominator : ℚ) else 0
        let seconds : ℚ :=
          if se.denominator ≠ 0 then (se.nominator : ℚ) / (se.denominator : ℚ) else 0
        let coord := degrees + minutes / 60 + seconds / 3600
        some (if direction = "S" ∨ direction = "W" then -coord else coord)
    | _ => none

/-- `processing.rs::extract_gps`: latitude and longitude from the four GPS
tags; `none` when any tag or conversion is missing. -/
def extract_gps (m : ExifData) : Option (ℚ × ℚ) := do
  let lat_vals ← m.gps_latitude
  let lat_ref ← m.gps_latitude_ref
  let lon_vals ← m.gps_longitude
  let lon_ref ← m.gps_longitude_ref
  let lat ← gps_rational_to_decimal lat_vals lat_ref
  let lon ← gps_rational_to_decimal lon_vals lon_ref
  some (lat, lon)

/-- `processing.rs::exposure_program_key`: EXIF ExposureProgram value to i18n
key; 0 and reserved values yield `none`. -/
def exposure_program_key (value : Nat) : Option String :=
  match value with
  | 1 => some "program.manual"
  | 2 => some "program.program"
  | 3 => some "program.aperture_priority"
  | 4 => some "program.shutter_priority"
  | 5 => some "program.creative"
  | 6 => some "program.action"
  | 7 => some "program.portrait"
  | 8 => some "program.landscape"
  | _ => none

/-- A decoded raster image (`image::DynamicImage`): header dimensions plus
abstract pixel data. -/
structure Img where
  width : Nat
  height : Nat
  px : Bytes
  deriving DecidableEq, Repr

/-- External collaborators of the processing engine, kept abstract:
the BLAKE3 digest, the header dimension probe, the full pixel decoder, the
resizer and WebP encoder, the `little_exif` parse / strip-rewrite calls and
their possible internal panics, the reverse geocoder, and float formatting.
Everything built on top of them is embedded from the repository code. -/
structure Ext where
  /-- `blake3::hash` truncated to its first 8 hex characters. -/
  h : Bytes → Hex8
  /-- `ImageReader::into_dimensions`: header-only probe; `none` models failure. -/
  probe_dims : Bytes → Option (Nat × Nat)
  /-- `image::load_from_memory`: full pixel decode; `none` models failure. -/
  decode : Bytes → Option Img
  /-- `DynamicImage::resize` to a square max-dimension box (Lanczos3). -/
  resize : Img → Nat → Img
  /-- RGBA conversion plus `webp::Encoder::encode` at the given quality. -/
  encode : Img → ℚ → Bytes
  /-- `Metadata::new_from_vec`: `none` models a parse error / missing EXIF. -/
  exif_try_parse : Bytes → FileType → Option ExifData
  /-- `Metadata::write_to_vec` after the GPS `remove_tag` calls: rewritten
  bytes, or the `EXIF write error` message. -/
  exif_write_stripped : ExifData → Bytes → Except String Bytes
  /-- Whether the `extract_exif` call panics inside `little_exif` for these
  bytes (caught by `catch_unwind` in `process_photo`). -/
  exif_panics : Bytes → Bool
  /-- Whether the `strip_gps_from_image` call panics inside `little_exif` for
  these bytes (caught by `catch_unwind` in `process_photo`). -/
  strip_panics : Bytes → Bool
  /-- `ReverseGeocoder::search` on decimal-degree coordinates. -/
  geocode : ℚ → ℚ → GeoRecord
  /-- The `{:.4}` coordinate display formatting of `GpsCoords::new`. -/
  fmt_coords : ℚ → ℚ → String
  /-- The `f/{:.1}` aperture formatting of `extract_exposure`. -/
  fmt_aperture : ℚ → String
  /-- `extract_xmp_rating`: the xpacket scan and XMP parse of the rating. -/
  xmp_rating : Bytes → Option Nat

/-- `processing.rs::extract_exposure`: aperture, shutter speed, ISO, focal
length and program from the EXIF tags, or `none` when every field is absent.
The integer arithmetic (`num / denom`, `denom / num`, `{}mm`) is exact; only
the one-decimal aperture formatting is abstract. -/
def extract_exposure (E : Ext) (m : ExifData) : Option ExposureInfo :=
  let aperture : Option String :=
    match m.f_number with
    | some (v :: _) =>
      if v.denominator ≠ 0 then some (E.fmt_aperture ((v.nominator : ℚ) / (v.denominator : ℚ)))
      else none
    | _ => none
  let shutter_speed : Option String :=
    match m.exposure_time with
    | some (v :: _) =>
      if v.denominator ≠ 0 then
        if v.nominator ≥ v.denominator then
          some (toString (v.nominator / v.denominator) ++ "s")
        else
          some ("1/" ++ toString (v.denominator / v.nominator))
      else none
    | _ => none
  let iso : Option Nat :=
    match m.iso with
    | some (v :: _) => some v
    | _ => none
  let focal_length : Option String :=
    match m.focal_length with
    | some (v :: _) =>
      if v.denominator ≠ 0 then some (toString (v.nominator / v.denominator) ++ "mm")
      else none
    | _ => none
  let program : Option String :=
    match m.exposure_program with
    | some (v :: _) => exposure_program_key (v % 256)
    | _ => none
  if aperture.isSome || shutter_speed.isSome || iso.isSome
      || focal_length.isSome || program.isSome then
    some ⟨aperture, shutter_speed, iso, focal_length, program⟩
  else none

/-- `processing.rs::extract_exif` (lines 312-401): metadata from the embedded
tag block; an unknown extension or a parse failure yields the default (empty)
metadata; the GPS block is built per privacy mode. -/
def extract_exif (E : Ext) (data : Bytes) (extension : String) (gps_mode : GpsMode) :
    PhotoMetadata :=
  match get_file_extension extension with
  | none => {}
  | some file_type =>
    match E.exif_try_parse data file_type with
    | none => {}
    | some m =>
      let camera := camera_of m.make m.model
      let gps : Option GpsCoords :=
        match gps_mode with
        | .off => none
        | .general => (extract_gps m).map (fun c => GpsCoords.new_general E.geocode c.1 c.2)
        | .on => (extract_gps m).map (fun c => GpsCoords.new E.fmt_coords E.geocode c.1 c.2)
      { date_taken := m.date_time_original
        copyright := m.copyright
        camera := camera
        lens := m.lens_model
        gps := gps
        exposure := extract_exposure E m
        rating := E.xmp_rating data }

/-- `processing.rs::strip_gps_from_image` (lines 630-684): an unknown format
or an EXIF parse failure returns the bytes unchanged; otherwise the GPS tags
are removed and the image rewritten, which can fail with an `EXIF write
error`. The fixed list of removed GPS tags lives inside the abstract
rewrite call. -/
def strip_gps_from_image (E : Ext) (data : Bytes) (extension : String) :
    Except String Bytes :=
  match get_file_extension extension with
  | none => .ok data
  | some file_type =>
    match E.exif_try_parse data file_type with
    | none => .ok data
    | some m => E.exif_write_stripped m data

/-- Size and quality presets (`processing.rs` lines 35-40). -/
def micro_thumb_size : Nat := 120

/-- Micro thumbnail quality preset. -/
def micro_thumb_quality : ℚ := 70

/-- Grid thumbnail size preset. -/
def thumb_size : Nat := 600

/-- Grid thumbnail quality preset. -/
def thumb_quality : ℚ := 80

/-- Full-size image dimension preset. -/
def full_size : Nat := 2400

/-- Full-size image quality preset. -/
def full_quality : ℚ := 90

/-- `processing.rs::generate_variant`: shrink-only resize to the
max-dimension box when either dimension exceeds it, then lossy WebP encode at
the given quality. -/
def generate_variant (E : Ext) (img : Img) (max_size : Nat) (quality : ℚ) : Bytes :=
  let resized := if img.width > max_size || img.height > max_size then E.resize img max_size
                 else img
  E.encode resized quality

/-- Micro thumbnail output path: `{dir}/{stem}-{hash}-micro.webp`. -/
def micro_path (images_dir stem hash : String) : Path :=
  images_dir ++ "/" ++ stem ++ "-" ++ hash ++ "-micro.webp"

/-- Grid thumbnail output path: `{dir}/{stem}-{hash}-thumb.webp`. -/
def thumb_path (images_dir stem hash : String) : Path :=
  images_dir ++ "/" ++ stem ++ "-" ++ hash ++ "-thumb.webp"

/-- Full-size output path: `{dir}/{stem}-{hash}-full.webp`. -/
def full_path (images_dir stem hash : String) : Path :=
  images_dir ++ "/" ++ stem ++ "-" ++ hash ++ "-full.webp"

/-- Original copy output path:
`{dir}/{stem}-{hash}-original{suffix}.{ext}` with the privacy-mode suffix. -/
def original_out_path (images_dir stem hash : String) (gps_mode : GpsMode)
    (extension : String) : Path :=
  images_dir ++ "/" ++ stem ++ "-" ++ hash ++ "-original" ++ gps_mode.original_suffix
    ++ "." ++ extension

/-- A photo as discovered on disk (`photos.rs::Photo` skeleton): stem, source
extension, and the result of `fs::read` on its source file (`none` when the
source is unreadable). -/
structure PhotoIn where
  stem : String
  ext : String
  read : Option Bytes
  deriving DecidableEq, Repr

/-- A fully processed photo record: the fields `process_photo` fills in on
the `Photo` plus the per-photo `PhotoProcessingResult` flags. -/
structure PhotoDone where
  stem : String
  ext : String
  hash : String
  width : Nat
  height : Nat
  original_size : Nat
  metadata : PhotoMetadata
  generated_webp : Bool
  copied_original : Bool
  deriving DecidableEq, Repr

/-- Everything observable about one `process_photo` call: the computed hash
(present as soon as the source was readable), the WebP variant writes and the
original-copy write performed in order, whether full pixels were decoded, and
the returned value or error. -/
structure ProcResult where
  hash_out : Option String
  variant_writes : List (Path × Bytes)
  original_writes : List (Path × Bytes)
  did_decode : Bool
  outcome : Except String PhotoDone
  deriving Repr

/-- All writes of a `process_photo` call, in the order issued. -/
def ProcResult.writes (r : ProcResult) : List (Path × Bytes) :=
  r.variant_writes ++ r.original_writes

/-- The original-copy step of `process_photo` (lines 255-276): nothing when
the original is cached; for mode On the bytes unchanged; otherwise the
strip-GPS result, falling back to the re-read unchanged bytes when the strip
call panics, and propagating a returned strip error. -/
def write_original (E : Ext) (gps_mode : GpsMode) (data : Bytes) (extension : String)
    (orig : Path) (need : Bool) : Except String (List (Path × Bytes)) :=
  if need then
    if gps_mode ≠ GpsMode.on then
      if E.strip_panics data then
        .ok [(orig, data)]
      else
        match strip_gps_from_image E data extension with
        | .ok b => .ok [(orig, b)]
        | .error e => .error e
    else .ok [(orig, data)]
  else .ok []

/-- `processing.rs::process_photo` (lines 160-282): read the source, hash its
bytes, extract metadata under a panic guard, probe dimensions, compute the
four hash-qualified target paths, check existence of each as the cache-hit
test, decode pixels only when a WebP variant is missing, generate and write
the missing variants, and write the original copy. `exists_file` is the
output-filesystem existence test. -/
def process_photo (E : Ext) (exists_file : Path → Bool) (images_dir : String)
    (gps_mode : GpsMode) (p : PhotoIn) : ProcResult :=
  match p.read with
  | none => ⟨none, [], [], false, .error "failed to read source file"⟩
  | some data =>
    let hash := hex8_string (E.h data)
    let md := if E.exif_panics data then {} else extract_exif E data p.ext gps_mode
    match E.probe_dims data with
    | none => ⟨some hash, [], [], false, .error "failed to probe dimensions"⟩
    | some wh =>
      let micro := micro_path images_dir p.stem hash
      let thumb := thumb_path images_dir p.stem hash
      let full := full_path images_dir p.stem hash
      let orig := original_out_path images_dir p.stem hash gps_mode p.ext
      let need_micro := ! exists_file micro
      let need_thumb := ! exists_file thumb
      let need_full := ! exists_file full
      let need_original := ! exists_file orig
      if !need_micro && !need_thumb && !need_full && !need_original then
        ⟨some hash, [], [], false,
          .ok ⟨p.stem, p.ext, hash, wh.1, wh.2, data.length, md, false, false⟩⟩
      else
        let done : PhotoDone :=
          ⟨p.stem, p.ext, hash, wh.1, wh.2, data.length, md,
            need_thumb || need_full, need_original⟩
        if need_micro || need_thumb || need_full then
          match E.decode data with
          | none => ⟨some hash, [], [], true, .error "failed to decode image"⟩
          | some img =>
            let ws :=
              (if need_micro then
                 [(micro, generate_variant E img micro_thumb_size micro_thumb_quality)]
               else []) ++
              (if need_thumb then
                 [(thumb, generate_variant E img thumb_size thumb_quality)]
               else []) ++
              (if need_full then
                 [(full, generate_variant E img full_size full_quality)]
               else [])
            match write_original E gps_mode data p.ext orig need_original with
            | .ok ows => ⟨some hash, ws, ows, true, .ok done⟩
            | .error e => ⟨some hash, ws, [], true, .error e⟩
        else
          match write_original E gps_mode data p.ext orig need_original with
          | .ok ows => ⟨some hash, [], ows, false, .ok done⟩
          | .error e => ⟨some hash, [], [], false, .error e⟩

/-- `processing.rs::ProcessingStats` / the five atomic counters of
`process_album`. -/
structure Counters where
  total : Nat
  cached : Nat
  generated : Nat
  copied : Nat
  skipped : Nat
  deriving DecidableEq, Repr

/-- The zero of every counter. -/
def czero : Counters := ⟨0, 0, 0, 0, 0⟩

/-- Componentwise counter addition; the atomic `fetch_add` updates commute,
so only these final sums are observable. -/
def counters_add (a b : Counters) : Counters :=
  ⟨a.total + b.total, a.cached + b.cached, a.generated + b.generated,
    a.copied + b.copied, a.skipped + b.skipped⟩

/-- Counter contribution of one successfully processed photo
(`process_album_recursive` lines 120-131): total always; cached when nothing
was generated or copied; generated / copied per flag. -/
def photo_counters (d : PhotoDone) : Counters :=
  ⟨1,
    if !d.generated_webp && !d.copied_original then 1 else 0,
    if d.generated_webp then 1 else 0,
    if d.copied_original then 1 else 0,
    0⟩

/-- Counter contribution of one skipped photo (lines 132-137). -/
def cskip : Counters := ⟨0, 0, 0, 0, 1⟩

/-- The output filesystem: an association list from paths to contents. -/
abbrev FS := List (Path × Bytes)

/-- Existence test on the output filesystem. -/
def fs_has (fs : FS) (p : Path) : Bool := fs.any (fun e => e.1 = p)

/-- Write (create or overwrite) one file. -/
def fs_write (fs : FS) (w : Path × Bytes) : FS :=
  w :: fs.filter (fun e => e.1 ≠ w.1)

/-- Apply a list of writes in order. -/
def apply_writes (fs : FS) (ws : List (Path × Bytes)) : FS := ws.foldl fs_write fs

/-- An album tree as discovered (`photos.rs::Album`): path relative to the
photo root (empty for the root album), photos, child albums. -/
inductive AlbumT where
  | mk (path : String) (photos : List PhotoIn) (children : List AlbumT)
  deriving Repr

/-- Relative path of an album. -/
def AlbumT.path : AlbumT → String
  | .mk p _ _ => p

/-- An album tree after processing: surviving photos are fully processed
records; photos whose processing failed have been dropped
(`album.photos.retain` on the cleared hash). -/
inductive AlbumOut where
  | mk (path : String) (photos : List PhotoDone) (children : List AlbumOut)
  deriving Repr

/-- Relative path of a processed album. -/
def AlbumOut.path : AlbumOut → String
  | .mk p _ _ => p

/-- Surviving photos of a processed album. -/
def AlbumOut.photos : AlbumOut → List PhotoDone
  | .mk _ ps _ => ps

/-- Children of a processed album. -/
def AlbumOut.children : AlbumOut → List AlbumOut
  | .mk _ _ cs => cs

/-- The per-photo loop of `process_album_recursive` (lines 117-142): process
each photo against the current output filesystem, apply its writes, bump the
counters, and keep the successful records (failed photos clear their hash and
are then dropped by `retain`). `rayon`'s per-album parallel iteration over
photos with disjoint target paths is linearized in list order. -/
def process_photo_list (E : Ext) (images_dir : String) (gps_mode : GpsMode) :
    List PhotoIn → FS → List PhotoDone × Counters × FS
  | [], fs => ([], czero, fs)
  | p :: rest, fs =>
    let r := process_photo E (fs_has fs) images_dir gps_mode p
    let fs' := apply_writes fs r.writes
    let rr := process_photo_list E images_dir gps_mode rest fs'
    match r.outcome with
    | .ok d => (d :: rr.1, counters_add (photo_counters d) rr.2.1, rr.2.2)
    | .error _ => (rr.1, counters_add cskip rr.2.1, rr.2.2)

mutual

/-- `processing.rs::process_album_recursive` (lines 94-157): derive this
album's images directory from its relative path, process its photos, then
recurse into its children. Directory creation is modelled as always
succeeding (its failure is the fatal-global class outside these claims). -/
def process_album_rec (E : Ext) (images_dir : String) (gps_mode : GpsMode) :
    AlbumT → FS → AlbumOut × Counters × FS
  | .mk path photos children, fs =>
    let album_dir := if path = "" then images_dir else images_dir ++ "/" ++ path
    let pr := process_photo_list E album_dir gps_mode photos fs
    let cr := process_children E images_dir gps_mode children pr.2.2
    (.mk path pr.1 cr.1, counters_add pr.2.1 cr.2.1, cr.2.2)

/-- Sequential processing of the child albums. -/
def process_children (E : Ext) (images_dir : String) (gps_mode : GpsMode) :
    List AlbumT → FS → List AlbumOut × Counters × FS
  | [], fs => ([], czero, fs)
  | a :: rest, fs =>
    let r := process_album_rec E images_dir gps_mode a fs
    let rr := process_children E images_dir gps_mode rest r.2.2
    (r.1 :: rr.1, counters_add r.2.1 rr.2.1, rr.2.2)

end

/-- `processing.rs::process_album` (lines 63-92): process the whole tree and
return the final counter sums (always `Ok`). -/
def process_album (E : Ext) (images_dir : String) (gps_mode : GpsMode)
    (album : AlbumT) (fs : FS) : AlbumOut × Counters × FS :=
  process_album_rec E images_dir gps_mode album fs

mutual

/-- `pipeline.rs::collect_album_images` (lines 527-554): the derived image
paths recorded as expected for reconciliation — per surviving photo the
`-thumb.webp`, `-full.webp` and `-original{suffix}.{ext}` paths under the
album's images directory, then the children's, exactly as the source inserts
them. -/
def collect_album_images (gps_mode : GpsMode) (images_dir : String) :
    AlbumOut → List Path
  | .mk path photos children =>
    let album_dir := if path = "" then images_dir else images_dir ++ "/" ++ path
    photos.flatMap (fun p =>
      [thumb_path album_dir p.stem p.hash,
       full_path album_dir p.stem p.hash,
       original_out_path album_dir p.stem p.hash gps_mode p.ext]) ++
    collect_children_images gps_mode images_dir children

/-- Expected image paths of a list of child albums. -/
def collect_children_images (gps_mode : GpsMode) (images_dir : String) :
    List AlbumOut → List Path
  | [] => []
  | a :: rest =>
    collect_album_images gps_mode images_dir a
      ++ collect_children_images gps_mode images_dir rest

end

/-- `pipeline.rs::cleanup_stale_files` / `cleanup_recursive` (lines 681-715):
delete every file of the output tree that is not in the expected set
(directories emptied by this are also removed; the flat filesystem model has
no separate directory entries). -/
def cleanup_stale (fs : FS) (expected : List Path) : FS :=
  fs.filter (fun e => expected.contains e.1)

/-- The image half of one `Pipeline::build` run (`pipeline.rs` lines
163-224 restricted to the images directory): process the tree, collect the
expected image paths from the processed tree, and reconcile. Returns the
processed tree, the stats, the reconciled filesystem, and the expected set. -/
def build_images (E : Ext) (images_dir : String) (gps_mode : GpsMode)
    (album : AlbumT) (fs : FS) : AlbumOut × Counters × FS × List Path :=
  let r := process_album E images_dir gps_mode album fs
  let expected := collect_album_images gps_mode images_dir r.1
  (r.1, r.2.1, cleanup_stale r.2.2 expected, expected)

/-- Top-level event kinds of the `notify` crate. -/
inductive EventKind where
  | any
  | access
  | create
  | modify
  | remove
  | other_kind
  deriving DecidableEq, Repr

/-- A filesystem path for the watcher, as a list of components (so that
`Path::starts_with` is component-wise prefixing). -/
abbrev WPath := List String

/-- A `notify::Event`: a kind and the touched paths. -/
structure WEvent where
  kind : EventKind
  paths : List WPath
  deriving DecidableEq, Repr

/-- `std::path::Path::starts_with`: whole-component prefix. -/
def wpath_starts_with (p base : WPath) : Bool := base.isPrefixOf p

/-- `Path::file_name().and_then(to_str)`: the final component. -/
def wpath_file_name (p : WPath) : Option String := p.getLast?

/-- Whether a path's final component names a hidden file. -/
def hidden_file_name (p : WPath) : Bool :=
  match wpath_file_name p with
  | some n => starts_with_str n "."
  | none => false

/-- `watch.rs::should_ignore_event` (lines 193-231): events whose kind is not
create / modify / remove are ignored; so is any event one of whose paths lies
under the output directory or names a hidden file. -/
def should_ignore_event (e : WEvent) (output_dir : WPath) : Bool :=
  match e.kind with
  | .create | .modify | .remove =>
    e.paths.any (fun p => wpath_starts_with p output_dir || hidden_file_name p)
  | _ => true

/-- One observable step of the `watch_and_rebuild` event loop (`watch.rs`
lines 106-159): either a filesystem event is received before the debounce
timer elapses (which restarts the timer), or the timer elapses
(`RecvTimeoutError::Timeout`). -/
inductive Msg where
  | ev (e : WEvent)
  | timer_elapsed
  deriving DecidableEq, Repr

/-- Loop state transition: a non-ignored event marks `needs_rebuild`; an
elapsed timer runs exactly one full blocking rebuild when the mark is set and
clears it. The state is `(needs_rebuild, rebuilds so far)`. -/
def watch_step (output_dir : WPath) (s : Bool × Nat) (m : Msg) : Bool × Nat :=
  match m with
  | .ev e => if should_ignore_event e output_dir then s else (true, s.2)
  | .timer_elapsed => if s.1 then (false, s.2 + 1) else s

/-- Run the watch loop over a message trace from the initial state
(`needs_rebuild = false`, zero rebuilds). -/
def watch_run (output_dir : WPath) (msgs : List Msg) : Bool × Nat :=
  msgs.foldl (watch_step output_dir) (false, 0)

/-- Whether a `process_photo` call returned `Ok` (the photo is kept) rather
than an error (the photo is dropped and counted as skipped). -/
def ProcResult.succeeded (r : ProcResult) : Bool :=
  match r.outcome with
  | .ok _ => true
  | .error _ => false

/-- A concrete instantiation of the external collaborators, used to evaluate
the pipeline on small inputs: the digest is constantly zero, the probe
reports 100 by 80 pixels, decoding always succeeds, resizing is the
identity, encoding appends the quality to the pixel bytes, no EXIF data
parses, and nothing panics. -/
def ext0 : Ext where
  h := fun _ => 0
  probe_dims := fun _ => some (100, 80)
  decode := fun b => some (Img.mk 100 80 b)
  resize := fun i _ => i
  encode := fun i q => i.px ++ [q.num.toNat]
  exif_try_parse := fun _ _ => none
  exif_write_stripped := fun _ d => Except.ok d
  exif_panics := fun _ => false
  strip_panics := fun _ => false
  geocode := fun _ _ => GeoRecord.mk "" "" ""
  fmt_coords := fun _ _ => ""
  fmt_aperture := fun _ => ""
  xmp_rating := fun _ => none

/-- A single readable source photo `test.jpg`. -/
def photo0 : PhotoIn := PhotoIn.mk "test" "jpg" (some [1, 2, 3])

/-- A root album holding only `photo0`. -/
def album0 : AlbumT := AlbumT.mk "" [photo0] []

/-- The micro-thumbnail path `process_photo` writes for `photo0` under
`ext0` (whose digest renders as `00000000`). -/
def micro0 : Path := micro_path "images" "test" (hex8_string 0)


/-- Like `ext0`, but every EXIF parse returns an empty tag block and the
strip-rewrite step fails with an EXIF write error (without panicking). -/
def ext_strip_err : Ext :=
  { ext0 with
    exif_try_parse := fun _ _ => some {}
    exif_write_stripped := fun _ _ => Except.error "EXIF write error: invalid EXIF" }

/-- Like `ext0`, but the strip-GPS call panics internally on every input. -/
def ext_panic : Ext := { ext0 with strip_panics := fun _ => true }

/-- Like `ext0`, but the header dimension probe always fails. -/
def ext_nprobe : Ext := { ext0 with probe_dims := fun _ => none }

/-- Like `ext0`, but full-pixel decoding always fails. -/
def ext_ndec : Ext := { ext0 with decode := fun _ => none }

/-- An output filesystem holding the three WebP variants of `photo0` (but no
original copy). -/
def fs_webp_only : FS :=
  [(micro_path "images" "test" (hex8_string 0), []),
   (thumb_path "images" "test" (hex8_string 0), []),
   (full_path "images" "test" (hex8_string 0), [])]

/-- An output filesystem holding all four mode-On variants of `photo0`. -/
def fs_all4 : FS :=
  (original_out_path "images" "test" (hex8_string 0) GpsMode.on "jpg", []) :: fs_webp_only

/-- A parsed EXIF tag block carrying GPS coordinates 35 N, 139 E in
degree/minute/second rationals. -/
def exif_gps : ExifData :=
  { gps_latitude := some [UR64.mk 35 1, UR64.mk 0 1, UR64.mk 0 1]
    gps_latitude_ref := some "N"
    gps_longitude := some [UR64.mk 139 1, UR64.mk 0 1, UR64.mk 0 1]
    gps_longitude_ref := some "E" }

/-- Like `ext0`, but every parse yields `exif_gps` and the geocoder returns
Saint-Denis on Reunion, whose ISO code `RE` is absent from the built-in
country-name table. -/
def ext_re : Ext :=
  { ext0 with
    exif_try_parse := fun _ _ => some exif_gps
    geocode := fun _ _ => GeoRecord.mk "Saint-Denis" "" "RE" }

/-- The computed hash is the digest of the source bytes alone: present iff
the source was readable, and independent of the existence checks, the images
directory, the privacy mode, the stem and the extension. -/
theorem process_photo_hash_out (E : Ext) (g : Path → Bool) (images_dir : String)
    (gps_mode : GpsMode) (p : PhotoIn) :
    (process_photo E g images_dir gps_mode p).hash_out
      = p.read.map (fun data => hex8_string (E.h data)) := by
  rcases hr : p.read with _ | data
  · simp [process_photo, hr]
  · rcases hp : E.probe_dims data with _ | wh
    · simp [process_photo, hr, hp]
    · simp only [process_photo, hr, hp, Option.map_some']
      split
      · rfl
      · split
        · rcases E.decode data with _ | img
          · rfl
          · rcases write_original E gps_mode data p.ext
              (original_out_path images_dir p.stem (hex8_string (E.h data)) gps_mode p.ext)
              (! g (original_out_path images_dir p.stem (hex8_string (E.h data)) gps_mode p.ext))
              with ows | e <;> rfl
        · rcases write_original E gps_mode data p.ext
            (original_out_path images_dir p.stem (hex8_string (E.h data)) gps_mode p.ext)
            (! g (original_out_path images_dir p.stem (hex8_string (E.h data)) gps_mode p.ext))
            with ows | e <;> rfl

/-- Normal form of the WebP variant writes of `process_photo`: exactly the
missing variants, generated from the decoded image; independent of the
privacy mode. -/
theorem process_photo_variant_writes (E : Ext) (g : Path → Bool) (images_dir : String)
    (gps_mode : GpsMode) (p : PhotoIn) :
    (process_photo E g images_dir gps_mode p).variant_writes
      = match p.read with
        | none => []
        | some data =>
          match E.probe_dims data with
          | none => []
          | some _ =>
            let hash := hex8_string (E.h data)
            let nm := ! g (micro_path images_dir p.stem hash)
            let nt := ! g (thumb_path images_dir p.stem hash)
            let nf := ! g (full_path images_dir p.stem hash)
            if nm || nt || nf then
              match E.decode data with
              | none => []
              | some img =>
                (if nm then
                   [(micro_path images_dir p.stem hash,
                     generate_variant E img micro_thumb_size micro_thumb_quality)]
                 else []) ++
                (if nt then
                   [(thumb_path images_dir p.stem hash,
                     generate_variant E img thumb_size thumb_quality)]
                 else []) ++
                (if nf then
                   [(full_path images_dir p.stem hash,
                     generate_variant E img full_size full_quality)]
                 else [])
            else [] := by
  rcases hr : p.read with _ | data
  · simp [process_photo, hr]
  · rcases hp : E.probe_dims data with _ | wh
    · simp [process_photo, hr, hp]
    · simp only [process_photo, hr, hp]
      split
      · rename_i hall
        simp only [Bool.and_eq_true, Bool.not_eq_true'] at hall
        simp [hall.1.1.1, hall.1.1.2, hall.1.2]
      · split
        · rcases E.decode data with _ | img
          · simp_all
          · rcases hw : write_original E gps_mode data p.ext
              (original_out_path images_dir p.stem (hex8_string (E.h data)) gps_mode p.ext)
              (! g (original_out_path images_dir p.stem (hex8_string (E.h data)) gps_mode p.ext))
              with ows | e <;> simp_all
        · rcases hw : write_original E gps_mode data p.ext
            (original_out_path images_dir p.stem (hex8_string (E.h data)) gps_mode p.ext)
            (! g (original_out_path images_dir p.stem (hex8_string (E.h data)) gps_mode p.ext))
            with ows | e <;> simp_all

/-- Normal form of the decode flag of `process_photo`: full pixels are
decoded exactly when the source is readable, the dimension probe succeeds,
and at least one WebP variant is missing; independent of the privacy mode. -/
theorem process_photo_did_decode (E : Ext) (g : Path → Bool) (images_dir : String)
    (gps_mode : GpsMode) (p : PhotoIn) :
    (process_photo E g images_dir gps_mode p).did_decode
      = match p.read with
        | none => false
        | some data =>
          match E.probe_dims data with
          | none => false
          | some _ =>
            let hash := hex8_string (E.h data)
            (! g (micro_path images_dir p.stem hash)
              || ! g (thumb_path images_dir p.stem hash)
              || ! g (full_path images_dir p.stem hash)) := by
  rcases hr : p.read with _ | data
  · simp [process_photo, hr]
  · rcases hp : E.probe_dims data with _ | wh
    · simp [process_photo, hr, hp]
    · simp only [process_photo, hr, hp]
      split
      · rename_i hall
        simp only [Bool.and_eq_true, Bool.not_eq_true'] at hall
        simp [hall.1.1.1, hall.1.1.2, hall.1.2]
      · split
        · rcases E.decode data with _ | img
          · simp_all
          · rcases hw : write_original E gps_mode data p.ext
              (original_out_path images_dir p.stem (hex8_string (E.h data)) gps_mode p.ext)
              (! g (original_out_path images_dir p.stem (hex8_string (E.h data)) gps_mode p.ext))
              with ows | e <;> simp_all
        · rcases hw : write_original E gps_mode data p.ext
            (original_out_path images_dir p.stem (hex8_string (E.h data)) gps_mode p.ext)
            (! g (original_out_path images_dir p.stem (hex8_string (E.h data)) gps_mode p.ext))
            with ows | e <;> simp_all

/-- An unreadable source file makes `process_photo` fail immediately,
performing no writes. -/
theorem process_photo_read_none (E : Ext) (g : Path → Bool) (images_dir : String)
    (gps_mode : GpsMode) (p : PhotoIn) (h : p.read = none) :
    process_photo E g images_dir gps_mode p
      = ⟨none, [], [], false, .error "failed to read source file"⟩ := by
  unfold process_photo
  rw [h]

/-- Whenever the original copy is missing, the image decodes (if needed),
and the original-write step yields the source bytes unchanged,
`process_photo` succeeds and writes exactly those bytes at the original
path, whatever the cache state of the WebP variants. -/
theorem process_photo_writes_original (E : Ext) (g : Path → Bool) (images_dir : String)
    (gps_mode : GpsMode) (p : PhotoIn) (data : Bytes) (wh : Nat × Nat) (img : Img)
    (hread : p.read = some data)
    (hdims : E.probe_dims data = some wh)
    (hdec : E.decode data = some img)
    (ho : g (original_out_path images_dir p.stem (hex8_string (E.h data)) gps_mode p.ext)
        = false)
    (hwo : write_original E gps_mode data p.ext
        (original_out_path images_dir p.stem (hex8_string (E.h data)) gps_mode p.ext) true
        = .ok [(original_out_path images_dir p.stem (hex8_string (E.h data)) gps_mode p.ext,
            data)]) :
    (process_photo E g images_dir gps_mode p).succeeded = true
    ∧ (process_photo E g images_dir gps_mode p).original_writes
        = [(original_out_path images_dir p.stem (hex8_string (E.h data)) gps_mode p.ext,
            data)] := by
  simp only [process_photo, hread, hdims, ho]
  simp only [Bool.not_false, Bool.and_true, Bool.and_false, Bool.false_and]
  split
  · rename_i hall
    simp at hall
  · split
    · rw [hdec]
      rw [hwo]
      exact ⟨rfl, rfl⟩
    · rw [hwo]
      exact ⟨rfl, rfl⟩

/-- Zero is a left identity of counter addition. -/
theorem czero_add (c : Counters) : counters_add czero c = c := by
  simp [counters_add, czero]

/-- Counter addition is associative. -/
theorem counters_add_assoc (a b c : Counters) :
    counters_add (counters_add a b) c = counters_add a (counters_add b c) := by
  simp [counters_add, Nat.add_assoc]

/-- The per-photo loop splits over list concatenation: the second half runs
on the filesystem produced by the first, records follow in order, and
counters add. -/
theorem process_photo_list_append (E : Ext) (images_dir : String) (gps_mode : GpsMode)
    (xs ys : List PhotoIn) (fs : FS) :
    process_photo_list E images_dir gps_mode (xs ++ ys) fs
      = ((process_photo_list E images_dir gps_mode xs fs).1
           ++ (process_photo_list E images_dir gps_mode ys
                (process_photo_list E images_dir gps_mode xs fs).2.2).1,
         counters_add (process_photo_list E images_dir gps_mode xs fs).2.1
           (process_photo_list E images_dir gps_mode ys
             (process_photo_list E images_dir gps_mode xs fs).2.2).2.1,
         (process_photo_list E images_dir gps_mode ys
           (process_photo_list E images_dir gps_mode xs fs).2.2).2.2) := by
  induction xs generalizing fs with
  | nil => simp [process_photo_list, czero_add]
  | cons p rest ih =>
    simp only [List.cons_append, process_photo_list, List.append_eq]
    rw [ih]
    cases (process_photo E (fs_has fs) images_dir gps_mode p).outcome with
    | ok d => simp [counters_add_assoc]
    | error e => simp [counters_add_assoc]

/-- Event messages never change the loop state once a rebuild is pending:
both a relevant event (which re-marks) and an ignored one leave
`(true, n)` unchanged; each such receipt restarts the debounce timer. -/
theorem watch_fold_events (output_dir : WPath) (es : List WEvent) (n : Nat) :
    List.foldl (watch_step output_dir) (true, n) (es.map Msg.ev) = (true, n) := by
  induction es with
  | nil => rfl
  | cons e rest ih =>
    simp only [List.map_cons, List.foldl_cons, watch_step]
    split <;> exact ih

/-- With no relevant event received, the rebuild flag stays clear and no
rebuild ever runs, through any number of ignored events and timer expiries. -/
theorem watch_fold_ignored (output_dir : WPath) (msgs : List Msg) (n : Nat)
    (h : ∀ e, Msg.ev e ∈ msgs → should_ignore_event e output_dir = true) :
    List.foldl (watch_step output_dir) (false, n) msgs = (false, n) := by
  induction msgs with
  | nil => rfl
  | cons m rest ih =>
    cases m with
    | ev e =>
      have he := h e (by simp)
      simp only [List.foldl_cons, watch_step, he, if_pos]
      exact ih (fun e' h' => h e' (by simp [h']))
    | timer_elapsed =>
      simp only [List.foldl_cons, watch_step]
      exact ih (fun e' h' => h e' (by simp [h']))

/-- Claim C1: every derived image file written by the processing engine —
micro thumbnail, grid thumbnail, full-size WebP, original copy — is
recorded in the expected-file set before reconciliation, so no file written
by a run is deleted by that run's reconciliation. This fails in the code:
on a fresh build of a one-photo album, processing writes the
`-micro.webp` file, but `collect_album_images` records only the thumb,
full and original paths, so reconciliation deletes the micro thumbnail the
same run wrote, while the other three variants survive. -/
theorem C1_micro_missing_from_expected_set :
    fs_has (process_album ext0 "images" GpsMode.on album0 []).2.2 micro0 = true
    ∧ ((build_images ext0 "images" GpsMode.on album0 []).2.2.2).contains micro0 = false
    ∧ ((build_images ext0 "images" GpsMode.on album0 []).2.2.2).contains
        (thumb_path "images" "test" (hex8_string 0)) = true
    ∧ ((build_images ext0 "images" GpsMode.on album0 []).2.2.2).contains
        (full_path "images" "test" (hex8_string 0)) = true
    ∧ ((build_images ext0 "images" GpsMode.on album0 []).2.2.2).contains
        (original_out_path "images" "test" (hex8_string 0) GpsMode.on "jpg") = true
    ∧ fs_has ((build_images ext0 "images" GpsMode.on album0 []).2.2.1) micro0 = false
    ∧ fs_has ((build_images ext0 "images" GpsMode.on album0 []).2.2.1)
        (thumb_path "images" "test" (hex8_string 0)) = true := by
  decide

/-- Claim C2: a second build on unchanged inputs would perform only
existence checks and no decode or write. This fails in the code: because the
first run's reconciliation deleted the micro thumbnail (claim C1's defect),
the second run's `process_photo` finds it missing, decodes full pixels and
rewrites exactly the micro file — while still reporting the photo as cached
(zero generated, zero copied, as the claim expects) and producing a
byte-identical reconciled output tree. -/
theorem C2_second_run_decodes_micro :
    (process_photo ext0
        (fs_has ((build_images ext0 "images" GpsMode.on album0 []).2.2.1))
        "images" GpsMode.on photo0).did_decode = true
    ∧ ((process_photo ext0
        (fs_has ((build_images ext0 "images" GpsMode.on album0 []).2.2.1))
        "images" GpsMode.on photo0).variant_writes).map Prod.fst = [micro0]
    ∧ (build_images ext0 "images" GpsMode.on album0
        ((build_images ext0 "images" GpsMode.on album0 []).2.2.1)).2.1
        = Counters.mk 1 1 0 0 0
    ∧ (build_images ext0 "images" GpsMode.on album0
        ((build_images ext0 "images" GpsMode.on album0 []).2.2.1)).2.2.1
        = (build_images ext0 "images" GpsMode.on album0 []).2.2.1 := by
  decide

/-- Claim C3 fails as stated: when the strip-GPS call does not panic but
returns an error (the EXIF rewrite step fails), `process_photo` propagates
that error instead of falling back to the unmodified bytes, so the photo is
dropped from the album and counted as skipped — here a one-photo album in
mode Off ends with one skipped photo and an empty photo list. -/
theorem C3_counterexample :
    (process_album ext_strip_err "images" GpsMode.off album0 []).2.1.skipped = 1
    ∧ (process_album ext_strip_err "images" GpsMode.off album0 []).1.photos = []
    ∧ (process_photo ext_strip_err (fs_has []) "images" GpsMode.off photo0).succeeded
        = false := by
  decide

/-- Claim C3 (amended): for a photo processed with privacy mode not On whose
original copy is missing from the cache (whatever the cache state of the
WebP variants, including a fresh build), the engine writes the unmodified
original bytes and the photo succeeds — neither dropped nor counted as
skipped — in each of the degradable cases: the strip-GPS call crashes
internally (panics); the format is unknown to the tag library; or the EXIF
parse fails. (A strip error returned without a panic, by contrast,
propagates and skips the photo, per the counterexample.) -/
theorem C3_panic_falls_back_to_original (E : Ext) (g : Path → Bool) (images_dir : String)
    (gps_mode : GpsMode) (p : PhotoIn) (data : Bytes) (wh : Nat × Nat) (img : Img)
    (hmode : gps_mode ≠ GpsMode.on)
    (hread : p.read = some data)
    (hdims : E.probe_dims data = some wh)
    (hdec : E.decode data = some img)
    (ho : g (original_out_path images_dir p.stem (hex8_string (E.h data)) gps_mode p.ext)
        = false) :
    (E.strip_panics data = true →
      (process_photo E g images_dir gps_mode p).succeeded = true
      ∧ (process_photo E g images_dir gps_mode p).original_writes
          = [(original_out_path images_dir p.stem (hex8_string (E.h data)) gps_mode p.ext,
              data)])
    ∧ (E.strip_panics data = false → get_file_extension p.ext = none →
      (process_photo E g images_dir gps_mode p).succeeded = true
      ∧ (process_photo E g images_dir gps_mode p).original_writes
          = [(original_out_path images_dir p.stem (hex8_string (E.h data)) gps_mode p.ext,
              data)])
    ∧ (∀ ft : FileType, E.strip_panics data = false →
      get_file_extension p.ext = some ft → E.exif_try_parse data ft = none →
      (process_photo E g images_dir gps_mode p).succeeded = true
      ∧ (process_photo E g images_dir gps_mode p).original_writes
          = [(original_out_path images_dir p.stem (hex8_string (E.h data)) gps_mode p.ext,
              data)]) := by
  refine ⟨fun hpanic => ?_, fun hpanic hft => ?_, fun ft hpanic hft hparse => ?_⟩ <;>
    refine process_photo_writes_original E g images_dir gps_mode p data wh img hread hdims
      hdec ho ?_
  · simp [write_original, hmode, hpanic]
  · simp [write_original, hmode, hpanic, strip_gps_from_image, hft]
  · simp [write_original, hmode, hpanic, strip_gps_from_image, hft, hparse]

/-- Witness for claim C3's theorem, with an empty output filesystem (a fresh
build, all variants missing): a panicking strip call on `photo0`, an unknown
format `anim.gif`, and a parse failure on `photo0` in General mode each
succeed and write the unchanged source bytes as the original copy. -/
theorem C3_witness :
    ((process_photo ext_panic (fs_has []) "images" GpsMode.off photo0).succeeded = true
      ∧ (process_photo ext_panic (fs_has []) "images" GpsMode.off photo0).original_writes
          = [(original_out_path "images" "test" (hex8_string (ext_panic.h [1, 2, 3]))
                GpsMode.off "jpg", [1, 2, 3])])
    ∧ ((process_photo ext0 (fs_has []) "images" GpsMode.off
          (PhotoIn.mk "anim" "gif" (some [7]))).succeeded = true
      ∧ (process_photo ext0 (fs_has []) "images" GpsMode.off
          (PhotoIn.mk "anim" "gif" (some [7]))).original_writes
          = [(original_out_path "images" "anim" (hex8_string (ext0.h [7]))
                GpsMode.off "gif", [7])])
    ∧ ((process_photo ext0 (fs_has []) "images" GpsMode.general photo0).succeeded = true
      ∧ (process_photo ext0 (fs_has []) "images" GpsMode.general photo0).original_writes
          = [(original_out_path "images" "test" (hex8_string (ext0.h [1, 2, 3]))
                GpsMode.general "jpg", [1, 2, 3])]) :=
  ⟨(C3_panic_falls_back_to_original ext_panic (fs_has []) "images" GpsMode.off photo0
      [1, 2, 3] (100, 80) (Img.mk 100 80 [1, 2, 3]) (by decide) rfl rfl rfl rfl).1 rfl,
    (C3_panic_falls_back_to_original ext0 (fs_has []) "images" GpsMode.off
      (PhotoIn.mk "anim" "gif" (some [7])) [7] (100, 80) (Img.mk 100 80 [7]) (by decide)
      rfl rfl rfl rfl).2.1 rfl (by decide),
    (C3_panic_falls_back_to_original ext0 (fs_has []) "images" GpsMode.general photo0
      [1, 2, 3] (100, 80) (Img.mk 100 80 [1, 2, 3]) (by decide) rfl rfl rfl rfl).2.2
      FileType.jpeg rfl (by decide) rfl⟩

/-- Claim C4 fails as stated in its General-mode clause: the GPS block's
country field is not always populated. For a photo geocoded to Saint-Denis
with ISO code `RE` (Reunion, absent from the built-in country-name table,
whose wildcard arm yields `None`), General mode yields a GPS block with the
city and flag populated but `country = none`. -/
theorem C4_counterexample :
    ((extract_exif ext_re [0] "jpg" GpsMode.general).gps.map (fun gc => gc.city))
      = some (some "Saint-Denis")
    ∧ ((extract_exif ext_re [0] "jpg" GpsMode.general).gps.map (fun gc => gc.country))
      = some none
    ∧ ((extract_exif ext_re [0] "jpg" GpsMode.general).gps.map (fun gc => gc.flag))
      = some (some (country_code_to_flag "RE")) := by
  decide

/-- Claim C4 (amended): for a photo whose EXIF parses and contains GPS
coordinates — mode Off: no GPS block at all and the `-nogps` original
suffix; mode General: coordinates and display absent, city, country code and
flag populated, and the country name exactly the table lookup of the
geocoded country code (populated iff the code is in the table), with the
`-nogps` suffix; mode On: latitude, longitude and display present and no
suffix. Serialized coordinates appear iff the mode is On. -/
theorem C4_privacy_modes (E : Ext) (data : Bytes) (extension : String) (ft : FileType)
    (m : ExifData) (lat lon : ℚ)
    (hft : get_file_extension extension = some ft)
    (hparse : E.exif_try_parse data ft = some m)
    (hgps : extract_gps m = some (lat, lon)) :
    ((extract_exif E data extension GpsMode.off).gps = none
      ∧ GpsMode.off.original_suffix = "-nogps")
    ∧ ((extract_exif E data extension GpsMode.general).gps
        = some (GpsCoords.new_general E.geocode lat lon)
      ∧ (GpsCoords.new_general E.geocode lat lon).latitude = none
      ∧ (GpsCoords.new_general E.geocode lat lon).longitude = none
      ∧ (GpsCoords.new_general E.geocode lat lon).display = none
      ∧ (GpsCoords.new_general E.geocode lat lon).city = some (E.geocode lat lon).name
      ∧ (GpsCoords.new_general E.geocode lat lon).country_code
          = some (E.geocode lat lon).cc
      ∧ ((GpsCoords.new_general E.geocode lat lon).flag).isSome = true
      ∧ (GpsCoords.new_general E.geocode lat lon).country
          = country_code_to_name (E.geocode lat lon).cc
      ∧ GpsMode.general.original_suffix = "-nogps")
    ∧ ((extract_exif E data extension GpsMode.on).gps
        = some (GpsCoords.new E.fmt_coords E.geocode lat lon)
      ∧ (GpsCoords.new E.fmt_coords E.geocode lat lon).latitude = some lat
      ∧ (GpsCoords.new E.fmt_coords E.geocode lat lon).longitude = some lon
      ∧ ((GpsCoords.new E.fmt_coords E.geocode lat lon).display).isSome = true
      ∧ GpsMode.on.original_suffix = "")
    ∧ (∀ gps_mode : GpsMode,
        (((extract_exif E data extension gps_mode).gps).bind
            (fun gc => gc.latitude)).isSome = true
          ↔ gps_mode = GpsMode.on) := by
  have hoff : (extract_exif E data extension GpsMode.off).gps = none := by
    simp [extract_exif, hft, hparse]
  have hge : (extract_exif E data extension GpsMode.general).gps
      = some (GpsCoords.new_general E.geocode lat lon) := by
    simp [extract_exif, hft, hparse, hgps]
  have hon : (extract_exif E data extension GpsMode.on).gps
      = some (GpsCoords.new E.fmt_coords E.geocode lat lon) := by
    simp [extract_exif, hft, hparse, hgps]
  refine ⟨⟨hoff, rfl⟩,
    ⟨hge, rfl, rfl, rfl, rfl, rfl, rfl, rfl, rfl⟩,
    ⟨hon, rfl, rfl, rfl, rfl⟩, ?_⟩
  intro gps_mode
  cases gps_mode
  · simp [hoff]
  · simp [hge, GpsCoords.new_general]
  · simp [hon, GpsCoords.new]

/-- Witness for claim C4's theorem at the Saint-Denis scenario: all three
per-mode GPS blocks come out as the theorem states. -/
theorem C4_witness :
    (extract_exif ext_re [0] "jpg" GpsMode.off).gps = none
    ∧ (extract_exif ext_re [0] "jpg" GpsMode.general).gps
        = some (GpsCoords.new_general ext_re.geocode 35 139)
    ∧ (extract_exif ext_re [0] "jpg" GpsMode.on).gps
        = some (GpsCoords.new ext_re.fmt_coords ext_re.geocode 35 139) :=
  ((fun t => ⟨t.1.1, t.2.1.1, t.2.2.1.1⟩)
    (C4_privacy_modes ext_re [0] "jpg" FileType.jpeg exif_gps 35 139 (by decide) rfl
      (by simp [extract_gps, exif_gps, gps_rational_to_decimal])))

/-- Claim C5: existence of the hash-qualified filename is the sole cache-hit
test per target. When all four variant files exist, `process_photo` performs
no write and no pixel decode, succeeds, and the photo is counted as cached
(stats `1 / 1 / 0 / 0 / 0`); and whenever full pixels are decoded, at least
one of the micro / thumb / full WebP files was missing. -/
theorem C5_cache_hit_is_file_existence (E : Ext) (fs : FS) (images_dir : String)
    (gps_mode : GpsMode) (p : PhotoIn) (data : Bytes) (wh : Nat × Nat)
    (hread : p.read = some data)
    (hdims : E.probe_dims data = some wh)
    (hm : fs_has fs (micro_path images_dir p.stem (hex8_string (E.h data))) = true)
    (ht : fs_has fs (thumb_path images_dir p.stem (hex8_string (E.h data))) = true)
    (hf : fs_has fs (full_path images_dir p.stem (hex8_string (E.h data))) = true)
    (ho : fs_has fs
        (original_out_path images_dir p.stem (hex8_string (E.h data)) gps_mode p.ext)
        = true) :
    ((process_photo E (fs_has fs) images_dir gps_mode p).variant_writes = []
      ∧ (process_photo E (fs_has fs) images_dir gps_mode p).original_writes = []
      ∧ (process_photo E (fs_has fs) images_dir gps_mode p).did_decode = false
      ∧ (process_photo E (fs_has fs) images_dir gps_mode p).succeeded = true
      ∧ (process_photo_list E images_dir gps_mode [p] fs).2.1 = Counters.mk 1 1 0 0 0)
    ∧ ∀ g' : Path → Bool,
        (process_photo E g' images_dir gps_mode p).did_decode = true →
        (g' (micro_path images_dir p.stem (hex8_string (E.h data))) = false
          ∨ g' (thumb_path images_dir p.stem (hex8_string (E.h data))) = false
          ∨ g' (full_path images_dir p.stem (hex8_string (E.h data))) = false) := by
  have key : process_photo E (fs_has fs) images_dir gps_mode p
      = ⟨some (hex8_string (E.h data)), [], [], false,
         .ok ⟨p.stem, p.ext, hex8_string (E.h data), wh.1, wh.2, data.length,
           (if E.exif_panics data then {} else extract_exif E data p.ext gps_mode),
           false, false⟩⟩ := by
    simp only [process_photo, hread, hdims]
    simp [hm, ht, hf, ho]
  constructor
  · refine ⟨by rw [key], by rw [key], by rw [key],
      by rw [key]; rfl, ?_⟩
    simp [process_photo_list, key, photo_counters, counters_add, czero]
  · intro g' hdec
    rw [process_photo_did_decode] at hdec
    simp only [hread, hdims] at hdec
    simp only [Bool.or_eq_true, Bool.not_eq_true'] at hdec
    exact or_assoc.mp hdec

/-- Witness for claim C5's theorem: with all four mode-On variants of
`photo0` present in the output filesystem, processing decodes nothing,
writes nothing, and reports the photo cached. -/
theorem C5_witness :
    ((process_photo ext0 (fs_has fs_all4) "images" GpsMode.on photo0).did_decode = false
      ∧ (process_photo_list ext0 "images" GpsMode.on [photo0] fs_all4).2.1
          = Counters.mk 1 1 0 0 0) :=
  ((fun t => ⟨t.1.2.2.1, t.1.2.2.2.2⟩)
    (C5_cache_hit_is_file_existence ext0 fs_all4 "images" GpsMode.on photo0 [1, 2, 3]
      (100, 80) rfl rfl (by decide) (by decide) (by decide) (by decide)))

/-- Claim C6 fails in its injectivity clause: no function from byte
sequences into the space of 8-hex-character digests is injective, because
the digest space is finite while byte sequences are not — so two distinct
byte sequences with equal truncated hashes always exist, whatever hash
function the engine uses. -/
theorem C6_counterexample : ¬ ∃ hsh : Bytes → Hex8, Function.Injective hsh := by
  rintro ⟨hsh, hinj⟩
  have hrep : Function.Injective (fun n : ℕ => hsh (List.replicate n 0)) := by
    intro a b hab
    have hl := congrArg List.length (hinj hab)
    simpa using hl
  obtain ⟨a, b, hne, heq⟩ :=
    Finite.exists_ne_map_eq_of_infinite (fun n : ℕ => hsh (List.replicate n 0))
  exact hne (hrep heq)

/-- Claim C6 (amended): the content hash renders as exactly 8 lowercase hex
characters and is derived from the source file's bytes only — two photos
with identical bytes hash identically regardless of filename stem,
extension, output directory, privacy mode or cache state. (Distinct byte
sequences are not guaranteed distinct hashes; see the counterexample.) -/
theorem C6_hash_of_bytes_only :
    (∀ x : Hex8, (hex8_string x).length = 8
      ∧ ∀ c ∈ (hex8_string x).data, c ∈ hex_digits)
    ∧ (∀ (E : Ext) (g₁ g₂ : Path → Bool) (d₁ d₂ : String) (m₁ m₂ : GpsMode)
        (p₁ p₂ : PhotoIn), p₁.read = p₂.read →
        (process_photo E g₁ d₁ m₁ p₁).hash_out = (process_photo E g₂ d₂ m₂ p₂).hash_out) := by
  constructor
  · intro x
    constructor
    · simp [hex8_string, hex8_chars]
    · intro c hc
      simp only [hex8_string, hex8_chars] at hc
      rcases List.mem_map.mp hc with ⟨i, _, hi⟩
      rw [← hi]
      have : ∀ j : Fin 16, hex_char j ∈ hex_digits := by decide
      exact this _
  · intro E g₁ g₂ d₁ d₂ m₁ m₂ p₁ p₂ hread
    rw [process_photo_hash_out, process_photo_hash_out, hread]

/-- Witness for claim C6's theorem: the zero digest renders as 8 characters,
and two photos with different stems, extensions, directories, modes and
cache states but equal bytes get equal hashes. -/
theorem C6_witness :
    (hex8_string (0 : Hex8)).length = 8
    ∧ (process_photo ext0 (fs_has []) "a" GpsMode.on
        (PhotoIn.mk "x" "jpg" (some [1]))).hash_out
      = (process_photo ext0 (fs_has fs_all4) "b" GpsMode.off
          (PhotoIn.mk "y" "png" (some [1]))).hash_out :=
  ⟨(C6_hash_of_bytes_only.1 0).1,
    C6_hash_of_bytes_only.2 ext0 (fs_has []) (fs_has fs_all4) "a" "b" GpsMode.on
      GpsMode.off (PhotoIn.mk "x" "jpg" (some [1])) (PhotoIn.mk "y" "png" (some [1])) rfl⟩

/-- Claim C7: each unrecoverable per-photo failure — an unreadable source,
a failed dimension probe, or a fatal decode failure when a WebP variant must
be generated — makes `process_photo` fail without performing any write; and
a photo that so fails at its place in the run is dropped from its album and
adds exactly one to the skipped counter, while the processed tree, the final
filesystem, and every other counter are exactly those of the same run
without the failing photo — sibling photos and all other albums are
unaffected, and processing still returns (it is total). -/
theorem C7_failed_photo_is_isolated (E : Ext) (images_dir : String) (gps_mode : GpsMode)
    (path : String) (pre post : List PhotoIn) (children : List AlbumT) (fs : FS)
    (bad : PhotoIn) :
    (∀ (g : Path → Bool) (dir : String), bad.read = none →
      (process_photo E g dir gps_mode bad).succeeded = false
      ∧ (process_photo E g dir gps_mode bad).writes = [])
    ∧ (∀ (g : Path → Bool) (dir : String) (data : Bytes),
        bad.read = some data → E.probe_dims data = none →
        (process_photo E g dir gps_mode bad).succeeded = false
        ∧ (process_photo E g dir gps_mode bad).writes = [])
    ∧ (∀ (g : Path → Bool) (dir : String) (data : Bytes) (wh : Nat × Nat),
        bad.read = some data → E.probe_dims data = some wh → E.decode data = none →
        (g (micro_path dir bad.stem (hex8_string (E.h data))) = false
          ∨ g (thumb_path dir bad.stem (hex8_string (E.h data))) = false
          ∨ g (full_path dir bad.stem (hex8_string (E.h data))) = false) →
        (process_photo E g dir gps_mode bad).succeeded = false
        ∧ (process_photo E g dir gps_mode bad).writes = [])
    ∧ (((process_photo E
          (fs_has (process_photo_list E
            (if path = "" then images_dir else images_dir ++ "/" ++ path)
            gps_mode pre fs).2.2)
          (if path = "" then images_dir else images_dir ++ "/" ++ path)
          gps_mode bad).succeeded = false
        ∧ (process_photo E
            (fs_has (process_photo_list E
              (if path = "" then images_dir else images_dir ++ "/" ++ path)
              gps_mode pre fs).2.2)
            (if path = "" then images_dir else images_dir ++ "/" ++ path)
            gps_mode bad).writes = []) →
      (process_album_rec E images_dir gps_mode
          (AlbumT.mk path (pre ++ bad :: post) children) fs).1
        = (process_album_rec E images_dir gps_mode
            (AlbumT.mk path (pre ++ post) children) fs).1
      ∧ (process_album_rec E images_dir gps_mode
          (AlbumT.mk path (pre ++ bad :: post) children) fs).2.2
        = (process_album_rec E images_dir gps_mode
            (AlbumT.mk path (pre ++ post) children) fs).2.2
      ∧ (process_album_rec E images_dir gps_mode
          (AlbumT.mk path (pre ++ bad :: post) children) fs).2.1.total
        = (process_album_rec E images_dir gps_mode
            (AlbumT.mk path (pre ++ post) children) fs).2.1.total
      ∧ (process_album_rec E images_dir gps_mode
          (AlbumT.mk path (pre ++ bad :: post) children) fs).2.1.cached
        = (process_album_rec E images_dir gps_mode
            (AlbumT.mk path (pre ++ post) children) fs).2.1.cached
      ∧ (process_album_rec E images_dir gps_mode
          (AlbumT.mk path (pre ++ bad :: post) children) fs).2.1.generated
        = (process_album_rec E images_dir gps_mode
            (AlbumT.mk path (pre ++ post) children) fs).2.1.generated
      ∧ (process_album_rec E images_dir gps_mode
          (AlbumT.mk path (pre ++ bad :: post) children) fs).2.1.copied
        = (process_album_rec E images_dir gps_mode
            (AlbumT.mk path (pre ++ post) children) fs).2.1.copied
      ∧ (process_album_rec E images_dir gps_mode
          (AlbumT.mk path (pre ++ bad :: post) children) fs).2.1.skipped
        = (process_album_rec E images_dir gps_mode
            (AlbumT.mk path (pre ++ post) children) fs).2.1.skipped + 1) := by
  refine ⟨?_, ?_, ?_, ?_⟩
  · intro g dir h
    rw [process_photo_read_none E g dir gps_mode bad h]
    exact ⟨rfl, rfl⟩
  · intro g dir data h hprobe
    simp [process_photo, h, hprobe, ProcResult.writes, ProcResult.succeeded]
  · intro g dir data wh h hprobe hdec hmiss
    rcases hmiss with hh | hh | hh <;>
      simp [process_photo, h, hprobe, hdec, hh, ProcResult.writes, ProcResult.succeeded]
  · intro hbadrun
    obtain ⟨hfail, hw⟩ := hbadrun
    have hout : ∃ e, (process_photo E
        (fs_has (process_photo_list E
          (if path = "" then images_dir else images_dir ++ "/" ++ path)
          gps_mode pre fs).2.2)
        (if path = "" then images_dir else images_dir ++ "/" ++ path)
        gps_mode bad).outcome = Except.error e := by
      cases hoc : (process_photo E
          (fs_has (process_photo_list E
            (if path = "" then images_dir else images_dir ++ "/" ++ path)
            gps_mode pre fs).2.2)
          (if path = "" then images_dir else images_dir ++ "/" ++ path)
          gps_mode bad).outcome with
      | ok d => simp [ProcResult.succeeded, hoc] at hfail
      | error e => exact ⟨e, rfl⟩
    obtain ⟨e, hoc⟩ := hout
    have hstep : process_photo_list E
        (if path = "" then images_dir else images_dir ++ "/" ++ path)
        gps_mode (bad :: post)
        (process_photo_list E
          (if path = "" then images_dir else images_dir ++ "/" ++ path)
          gps_mode pre fs).2.2
      = ((process_photo_list E
            (if path = "" then images_dir else images_dir ++ "/" ++ path)
            gps_mode post
            (process_photo_list E
              (if path = "" then images_dir else images_dir ++ "/" ++ path)
              gps_mode pre fs).2.2).1,
         counters_add cskip
          (process_photo_list E
            (if path = "" then images_dir else images_dir ++ "/" ++ path)
            gps_mode post
            (process_photo_list E
              (if path = "" then images_dir else images_dir ++ "/" ++ path)
              gps_mode pre fs).2.2).2.1,
         (process_photo_list E
            (if path = "" then images_dir else images_dir ++ "/" ++ path)
            gps_mode post
            (process_photo_list E
              (if path = "" then images_dir else images_dir ++ "/" ++ path)
              gps_mode pre fs).2.2).2.2) := by
      simp [process_photo_list, hoc, hw, apply_writes]
    simp only [process_album_rec]
    rw [process_photo_list_append, process_photo_list_append, hstep]
    refine ⟨rfl, rfl, ?_, ?_, ?_, ?_, ?_⟩ <;> (simp only [counters_add, cskip]; omega)

/-- Witness for claim C7's theorem: the isolation conclusion at an album
holding `photo0` plus an unreadable `bad.jpg` (same processed tree, one more
skipped), plus the write-free failures for a failed dimension probe and for
a fatal decode on a fresh build. -/
theorem C7_witness :
    ((process_album_rec ext0 "images" GpsMode.on
        (AlbumT.mk "" [photo0, PhotoIn.mk "bad" "jpg" none] []) []).2.1.skipped
      = (process_album_rec ext0 "images" GpsMode.on
          (AlbumT.mk "" [photo0] []) []).2.1.skipped + 1
    ∧ (process_album_rec ext0 "images" GpsMode.on
        (AlbumT.mk "" [photo0, PhotoIn.mk "bad" "jpg" none] []) []).1
      = (process_album_rec ext0 "images" GpsMode.on
          (AlbumT.mk "" [photo0] []) []).1)
    ∧ ((process_photo ext_nprobe (fs_has []) "images" GpsMode.on photo0).succeeded = false
      ∧ (process_photo ext_nprobe (fs_has []) "images" GpsMode.on photo0).writes = [])
    ∧ ((process_photo ext_ndec (fs_has []) "images" GpsMode.on photo0).succeeded = false
      ∧ (process_photo ext_ndec (fs_has []) "images" GpsMode.on photo0).writes = []) :=
  ⟨((fun t => ⟨t.2.2.2.2.2.2, t.1⟩)
      ((C7_failed_photo_is_isolated ext0 "images" GpsMode.on "" [photo0] [] [] []
        (PhotoIn.mk "bad" "jpg" none)).2.2.2 (by decide))),
    (C7_failed_photo_is_isolated ext_nprobe "images" GpsMode.on "" [] [] [] []
      photo0).2.1 (fs_has []) "images" [1, 2, 3] rfl rfl,
    (C7_failed_photo_is_isolated ext_ndec "images" GpsMode.on "" [] [] [] []
      photo0).2.2.1 (fs_has []) "images" [1, 2, 3] (100, 80) rfl rfl rfl
      (Or.inl rfl)⟩

/-- Claim C8 fails in its containment clause: deduplication happens only
when the Model string starts with the Make string, not whenever one contains
the other. Make `Canon` with Model `My Canon EOS R5` — where the Model
contains the Make as an inner substring — merges to
`Canon My Canon EOS R5`, not to the Model alone as the claim requires. -/
theorem C8_counterexample :
    "My " ++ "Canon" ++ " EOS R5" = "My Canon EOS R5"
    ∧ camera_of (some "Canon") (some "My Canon EOS R5")
        = some "Canon My Canon EOS R5"
    ∧ some "Canon My Canon EOS R5" ≠ some "My Canon EOS R5" := by
  refine ⟨by decide, by decide, by decide⟩

/-- Claim C8 (amended): the camera field merges Make and Model as
`"Make Model"`, deduplicated exactly when the Model starts with the Make (in
which case the Model alone is used — so `Canon` + `Canon EOS R5` never
yields `Canon Canon EOS R5`); with only one of Make / Model present that one
is used alone, and with neither present the field is absent. -/
theorem C8_camera_merge (mk mo : String) :
    (starts_with_str mo mk = true → camera_of (some mk) (some mo) = some mo)
    ∧ (starts_with_str mo mk = false →
        camera_of (some mk) (some mo) = some (mk ++ " " ++ mo))
    ∧ camera_of none (some mo) = some mo
    ∧ camera_of (some mk) none = some mk
    ∧ camera_of none none = none := by
  refine ⟨fun h => ?_, fun h => ?_, rfl, rfl, rfl⟩ <;> simp [camera_of, h]

/-- Witness for claim C8's theorem: `Canon` + `Canon EOS R5` deduplicates to
the Model alone, and `Nikon` + `Z 8` merges with a space. -/
theorem C8_witness :
    camera_of (some "Canon") (some "Canon EOS R5") = some "Canon EOS R5"
    ∧ camera_of (some "Nikon") (some "Z 8") = some ("Nikon" ++ " " ++ "Z 8") :=
  ⟨(C8_camera_merge "Canon" "Canon EOS R5").1 (by decide),
    (C8_camera_merge "Nikon" "Z 8").2.1 (by decide)⟩

/-- Claim C9: a trace of relevant events followed by one timer expiry yields
exactly one rebuild — every received event restarts the debounce wait, and
the rebuild fires only at an expiry with no further events; a trace whose
events are all ignored yields zero rebuilds; and an event is ignored
whenever its kind is not create / modify / remove, or one of its paths lies
under the output directory, or one of its paths names a hidden file. -/
theorem C9_debounced_single_rebuild :
    (∀ (output_dir : WPath) (e0 : WEvent) (es : List WEvent),
        (∀ e ∈ e0 :: es, should_ignore_event e output_dir = false) →
        watch_run output_dir ((e0 :: es).map Msg.ev ++ [Msg.timer_elapsed]) = (false, 1))
    ∧ (∀ (output_dir : WPath) (msgs : List Msg),
        (∀ e, Msg.ev e ∈ msgs → should_ignore_event e output_dir = true) →
        (watch_run output_dir msgs).2 = 0)
    ∧ (∀ (output_dir : WPath) (e : WEvent),
        e.kind ≠ EventKind.create → e.kind ≠ EventKind.modify →
        e.kind ≠ EventKind.remove →
        should_ignore_event e output_dir = true)
    ∧ (∀ (output_dir : WPath) (e : WEvent),
        e.paths.any (fun p => wpath_starts_with p output_dir) = true →
        should_ignore_event e output_dir = true)
    ∧ (∀ (output_dir : WPath) (e : WEvent),
        e.paths.any hidden_file_name = true →
        should_ignore_event e output_dir = true) := by
  refine ⟨?_, ?_, ?_, ?_, ?_⟩
  · intro output_dir e0 es h
    have h0 := h e0 (by simp)
    simp only [watch_run, List.map_cons, List.foldl_append, List.foldl_cons,
      watch_step, h0, Bool.false_eq_true, if_false]
    rw [watch_fold_events]
    rfl
  · intro output_dir msgs h
    simp only [watch_run]
    rw [watch_fold_ignored output_dir msgs 0 h]
  · intro output_dir e hc hm hr
    rcases e with ⟨k, ps⟩
    cases k <;> simp_all [should_ignore_event]
  · intro output_dir e hp
    rcases List.any_eq_true.mp hp with ⟨p, hmem, hst⟩
    rcases e with ⟨k, ps⟩
    cases k <;>
      simp only [should_ignore_event] <;>
      first
        | rfl
        | exact List.any_eq_true.mpr ⟨p, hmem, by simp [hst]⟩
  · intro output_dir e hp
    rcases List.any_eq_true.mp hp with ⟨p, hmem, hh⟩
    rcases e with ⟨k, ps⟩
    cases k <;>
      simp only [should_ignore_event] <;>
      first
        | rfl
        | exact List.any_eq_true.mpr ⟨p, hmem, by simp [hh]⟩

/-- Witness for claim C9's theorem: one relevant create event under the
photos directory plus a timer expiry rebuilds exactly once; an access event
alone never rebuilds; a create inside the output directory and a hidden-file
create are both ignored. -/
theorem C9_witness :
    watch_run ["site", "dist"]
        [Msg.ev (WEvent.mk EventKind.create [["site", "photos", "beach.jpg"]]),
         Msg.timer_elapsed] = (false, 1)
    ∧ (watch_run ["site", "dist"]
        [Msg.ev (WEvent.mk EventKind.access [["site", "photos", "beach.jpg"]])]).2 = 0
    ∧ should_ignore_event
        (WEvent.mk EventKind.create [["site", "dist", "index.html"]])
        ["site", "dist"] = true
    ∧ should_ignore_event
        (WEvent.mk EventKind.create [["site", "photos", ".DS_Store"]])
        ["site", "dist"] = true :=
  ⟨C9_debounced_single_rebuild.1 ["site", "dist"]
      (WEvent.mk EventKind.create [["site", "photos", "beach.jpg"]]) [] (by decide),
    C9_debounced_single_rebuild.2.1 ["site", "dist"]
      [Msg.ev (WEvent.mk EventKind.access [["site", "photos", "beach.jpg"]])]
      (by intro e he; simp only [List.mem_singleton, Msg.ev.injEq] at he; subst he; decide),
    C9_debounced_single_rebuild.2.2.2.1 ["site", "dist"]
      (WEvent.mk EventKind.create [["site", "dist", "index.html"]]) (by decide),
    C9_debounced_single_rebuild.2.2.2.2 ["site", "dist"]
      (WEvent.mk EventKind.create [["site", "photos", ".DS_Store"]]) (by decide)⟩

/-- Claim C10: for a fixed source photo, the computed content hash, the
micro / thumb / full WebP variant writes (paths and bytes), and whether full
pixels are decoded are all identical across the three privacy modes — the
mode influences only the extracted metadata and the original copy, so
switching it never invalidates the WebP variant cache. -/
theorem C10_webp_variants_mode_independent (E : Ext) (g : Path → Bool)
    (images_dir : String) (p : PhotoIn) (m₁ m₂ : GpsMode) :
    (process_photo E g images_dir m₁ p).hash_out
      = (process_photo E g images_dir m₂ p).hash_out
    ∧ (process_photo E g images_dir m₁ p).variant_writes
      = (process_photo E g images_dir m₂ p).variant_writes
    ∧ (process_photo E g images_dir m₁ p).did_decode
      = (process_photo E g images_dir m₂ p).did_decode := by
  refine ⟨?_, ?_, ?_⟩
  · rw [process_photo_hash_out, process_photo_hash_out]
  · rw [process_photo_variant_writes, process_photo_variant_writes]
  · rw [process_photo_did_decode, process_photo_did_decode]

end Galerie
